import Mathlib

/-!
Verification of the ethernet-interface normalization module
(`netw/eth/eth.go`): a shallow embedding of the wire variants
(`entry_v1` / `entry_v2`), the per-variant `Normalize` and `specify`
functions, the version dispatch, and the manager operations
(`Set`, `Delete`, `details`), together with theorems about the
properties the module is expected to satisfy.

Go-specific semantics that matter here are made explicit:
a Go `map[string]string` is embedded as `Option (List (String × String))`,
where `none` is the nil map.  Reading from a nil map yields the zero value
with `present = false`; *writing* to a nil map is a runtime panic, which is
embedded as `none : Option Entry` propagating out of `container_v1.Normalize`.
`container_v2.Normalize` initializes the map before the mode switch, so its
writes are total.
-/

namespace Pango

/-- Association-list model of a (non-nil) Go string map: insert or replace. -/
def mapInsert : List (String × String) → String → String → List (String × String)
  | [], k, v => [(k, v)]
  | (k0, v0) :: t, k, v =>
      if k0 = k then (k, v) :: t else (k0, v0) :: mapInsert t k v

/-- Association-list model of a Go string map read: first binding for the key. -/
def mapFind : List (String × String) → String → Option String
  | [], _ => none
  | (k0, v0) :: t, k => if k0 = k then some v0 else mapFind t k

/-- Go read `m[k]` where `m` may be the nil map: a nil map read is permitted
and simply reports the key absent. -/
def rawLookup (m : Option (List (String × String))) (k : String) : Option String :=
  match m with
  | none => none
  | some l => mapFind l k

/-- Go write `m[k] = v` where `m` may be the nil map: assignment to an entry
in a nil map is a runtime panic, embedded as `none`. -/
def rawStore (m : Option (List (String × String))) (k v : String) :
    Option (Option (List (String × String))) :=
  match m with
  | none => none
  | some l => some (some (mapInsert l k v))

/-- Modelled from the spec: `util.AsBool` (the util package is not under
src/); wire booleans are the literal strings yes/no, and only the string
yes converts to native true. -/
def AsBool (s : String) : Bool := s = "yes"

/-- Modelled from the spec: `util.YesNo` (the util package is not under
src/); a native boolean serializes as the literal string yes or no. -/
def YesNo (b : Bool) : String := if b then "yes" else "no"

/-- Modelled from the spec: `util.CleanRawXml` (the util package is not
under src/).  The spec requires only that the clean step strip the
enclosing wrapper tag so that re-wrapping during specify is lossless; the
embedded fragment `Text` already excludes the wrapper tag (Go innerxml
semantics), so on it the clean step is the identity. -/
def CleanRawXml (s : String) : String := s

/-- Modelled from the spec: `util.EntToStr` (the util package is not under
src/); converts the wire address-list form (a nilable entry list) back to
the record string sequence, an absent list giving the empty sequence. -/
def EntToStr (e : Option (List String)) : List String :=
  match e with
  | none => []
  | some l => l

/-- Modelled from the spec: `util.StrToEnt` (the util package is not under
src/); converts the record string sequence to the wire address-list form,
an empty sequence giving an absent list. -/
def StrToEnt (l : List String) : Option (List String) :=
  match l with
  | [] => none
  | x :: t => some (x :: t)

/-- Modelled from the spec: `util.AsEntryXpath` (the util package is not
under src/); the entry-selector path segment built from zero, one or many
names. -/
def AsEntryXpath (vals : List String) : String :=
  ("entry[") ++ String.intercalate (" or ") (vals.map (fun v => ("@name=") ++ v)) ++ ("]")

/-- Modelled from the spec: `version.Number` and its `Gte` comparison (the
version package is not under src/); only the comparison result is consumed. -/
structure Number where
  Major : Nat
  Minor : Nat
  Patch : Nat
  Suffix : String
deriving Repr, DecidableEq

/-- Modelled from the spec: version comparison is lexicographic on
(Major, Minor, Patch). -/
def Number.Gte (v o : Number) : Bool :=
  if v.Major ≠ o.Major then v.Major > o.Major
  else if v.Minor ≠ o.Minor then v.Minor > o.Minor
  else v.Patch ≥ o.Patch

/-- `Entry` is the normalized, version independent representation of an
ethernet interface.  Field defaults are the Go zero values; `raw` is the
fragments map, `none` being the Go nil map. -/
structure Entry where
  Name : String := ""
  Mode : String := ""
  StaticIps : List String := []
  EnableDhcp : Bool := false
  CreateDhcpDefaultRoute : Bool := false
  DhcpDefaultRouteMetric : Int := 0
  Ipv6Enabled : Bool := false
  ManagementProfile : String := ""
  Mtu : Int := 0
  AdjustTcpMss : Bool := false
  NetflowProfile : String := ""
  LldpEnabled : Bool := false
  LldpProfile : String := ""
  LinkSpeed : String := ""
  LinkDuplex : String := ""
  LinkState : String := ""
  AggregateGroup : String := ""
  Comment : String := ""
  Ipv4MssAdjust : Int := 0
  Ipv6MssAdjust : Int := 0
  raw : Option (List (String × String)) := none
deriving Repr, DecidableEq

/-- An opaque preserved XML sub-tree (`util.RawXml`): the inner text. -/
structure RawXml where
  Text : String
deriving Repr, DecidableEq

/-- Wire `dhcp-client` sub-object. -/
structure dhcpSettings where
  Enable : String := ""
  CreateDefaultRoute : String := ""
  Metric : Int := 0
deriving Repr, DecidableEq

/-- Wire `ipv6` sub-object of the layer3 mode. -/
structure ipv6 where
  Enabled : String := ""
  Address : Option RawXml := none
deriving Repr, DecidableEq

/-- Wire marker sub-object for the modes that carry no fields. -/
structure emptyMode
deriving Repr, DecidableEq

/-- Wire sub-object shared by the layer2 and virtual-wire modes. -/
structure otherMode where
  LldpEnabled : String := ""
  LldpProfile : String := ""
  NetflowProfile : String := ""
  Subinterface : Option RawXml := none
deriving Repr, DecidableEq

/-- Wire layer3 sub-object, schema variant v1 (bare adjust-tcp-mss flag). -/
structure l3Mode_v1 where
  Ipv6 : ipv6 := {}
  ManagementProfile : String := ""
  Mtu : Int := 0
  NetflowProfile : String := ""
  AdjustTcpMss : String := ""
  StaticIps : Option (List String) := none
  Dhcp : Option dhcpSettings := none
  Arp : Option RawXml := none
  Subinterface : Option RawXml := none
deriving Repr, DecidableEq

/-- Wire top-level entry, schema variant v1. -/
structure entry_v1 where
  Name : String := ""
  ModeL2 : Option otherMode := none
  ModeL3 : Option l3Mode_v1 := none
  ModeVwire : Option otherMode := none
  TapMode : Option emptyMode := none
  HaMode : Option emptyMode := none
  DecryptMirrorMode : Option emptyMode := none
  AggregateGroupMode : Option emptyMode := none
  LinkSpeed : String := ""
  LinkDuplex : String := ""
  LinkState : String := ""
  Comment : String := ""
deriving Repr, DecidableEq

/-- Wire response container, schema variant v1. -/
structure container_v1 where
  Answer : entry_v1 := {}
deriving Repr, DecidableEq

/-- Wire layer3 sub-object, schema variant v2 (adjust-tcp-mss nests the
enable flag and the two MSS adjustment integers). -/
structure l3Mode_v2 where
  Ipv6 : ipv6 := {}
  ManagementProfile : String := ""
  Mtu : Int := 0
  NetflowProfile : String := ""
  AdjustTcpMss : String := ""
  Ipv4MssAdjust : Int := 0
  Ipv6MssAdjust : Int := 0
  StaticIps : Option (List String) := none
  Dhcp : Option dhcpSettings := none
  Arp : Option RawXml := none
  Subinterface : Option RawXml := none
deriving Repr, DecidableEq

/-- Wire top-level entry, schema variant v2. -/
structure entry_v2 where
  Name : String := ""
  ModeL3 : Option l3Mode_v2 := none
  ModeL2 : Option otherMode := none
  ModeVwire : Option otherMode := none
  TapMode : Option emptyMode := none
  HaMode : Option emptyMode := none
  DecryptMirrorMode : Option emptyMode := none
  AggregateGroupMode : Option emptyMode := none
  LinkSpeed : String := ""
  LinkDuplex : String := ""
  LinkState : String := ""
  Comment : String := ""
deriving Repr, DecidableEq

/-- Wire response container, schema variant v2. -/
structure container_v2 where
  Answer : entry_v2 := {}
deriving Repr, DecidableEq

/-- Fixed fragment key for the ARP block. -/
def arpKey : String := "arp"

/-- Fixed fragment key for the layer3 units block. -/
def l3subKey : String := "l3subinterface"

/-- Fixed fragment key for the layer2 units block. -/
def l2subKey : String := "l2subinterface"

/-- Fixed fragment key for the IPv6 address block. -/
def ipv6Key : String := "ipv6"

/-- The conditional fragment capture `if frag != nil { ans.raw[k] = clean }`
under Go nil-map semantics: the write panics (`none`) when the map is nil. -/
def fragStore (ans : Entry) (frag : Option RawXml) (k : String) : Option Entry :=
  match frag with
  | some x => (rawStore ans.raw k (CleanRawXml x.Text)).map (fun r => { ans with raw := r })
  | none => some ans

/-- The same conditional fragment capture on a map known to be initialized
(variant v2 initializes `raw` before the mode switch, so the Go write
cannot panic there). -/
def fragStoreInit (ans : Entry) (frag : Option RawXml) (k : String) : Entry :=
  match frag with
  | some x => { ans with raw := some (mapInsert (ans.raw.getD []) k (CleanRawXml x.Text)) }
  | none => ans

/-- `container_v1.Normalize`: v1 wire object to unified record.  The `raw`
map is never initialized in v1, so every fragment capture goes through the
panicking nil-map write; `none` is the Go runtime panic. -/
def container_v1.Normalize (o : container_v1) : Option Entry :=
  let a := o.Answer
  let ans : Entry :=
    { Name := a.Name, LinkSpeed := a.LinkSpeed,
      LinkDuplex := a.LinkDuplex, LinkState := a.LinkState, Comment := a.Comment }
  match a.ModeL3 with
  | some m =>
    let ans :=
      { ans with
        Mode := "layer3",
        Ipv6Enabled := AsBool m.Ipv6.Enabled,
        ManagementProfile := m.ManagementProfile,
        Mtu := m.Mtu,
        NetflowProfile := m.NetflowProfile,
        AdjustTcpMss := AsBool m.AdjustTcpMss,
        StaticIps := EntToStr m.StaticIps }
    let ans :=
      match m.Dhcp with
      | some d =>
        { ans with
          EnableDhcp := AsBool d.Enable,
          CreateDhcpDefaultRoute := AsBool d.CreateDefaultRoute,
          DhcpDefaultRouteMetric := d.Metric }
      | none => ans
    (fragStore ans m.Arp arpKey).bind (fun ans =>
      (fragStore ans m.Subinterface l3subKey).bind (fun ans =>
        fragStore ans m.Ipv6.Address ipv6Key))
  | none =>
  match a.ModeL2 with
  | some m =>
    let ans :=
      { ans with
        Mode := "layer2",
        LldpEnabled := AsBool m.LldpEnabled,
        LldpProfile := m.LldpProfile,
        NetflowProfile := m.NetflowProfile }
    fragStore ans m.Subinterface l2subKey
  | none =>
  match a.ModeVwire with
  | some m =>
    some
      { ans with
        Mode := "virtual-wire",
        LldpEnabled := AsBool m.LldpEnabled,
        LldpProfile := m.LldpProfile,
        NetflowProfile := m.NetflowProfile }
  | none =>
  match a.TapMode with
  | some _ => some { ans with Mode := "tap" }
  | none =>
  match a.HaMode with
  | some _ => some { ans with Mode := "ha" }
  | none =>
  match a.DecryptMirrorMode with
  | some _ => some { ans with Mode := "decrypt-mirror" }
  | none =>
  match a.AggregateGroupMode with
  | some _ => some { ans with Mode := "aggregate-group" }
  | none => some ans

/-- `container_v2.Normalize`: v2 wire object to unified record.  v2
initializes the fragments map (`ans.raw = make(...)`) before the mode
switch, so all fragment captures are total. -/
def container_v2.Normalize (o : container_v2) : Entry :=
  let a := o.Answer
  let ans : Entry :=
    { Name := a.Name, LinkSpeed := a.LinkSpeed,
      LinkDuplex := a.LinkDuplex, LinkState := a.LinkState, Comment := a.Comment }
  let ans := { ans with raw := some [] }
  match a.ModeL3 with
  | some m =>
    let ans :=
      { ans with
        Mode := "layer3",
        Ipv6Enabled := AsBool m.Ipv6.Enabled,
        ManagementProfile := m.ManagementProfile,
        Mtu := m.Mtu,
        NetflowProfile := m.NetflowProfile,
        AdjustTcpMss := AsBool m.AdjustTcpMss,
        Ipv4MssAdjust := m.Ipv4MssAdjust,
        Ipv6MssAdjust := m.Ipv6MssAdjust,
        StaticIps := EntToStr m.StaticIps }
    let ans :=
      match m.Dhcp with
      | some d =>
        { ans with
          EnableDhcp := AsBool d.Enable,
          CreateDhcpDefaultRoute := AsBool d.CreateDefaultRoute,
          DhcpDefaultRouteMetric := d.Metric }
      | none => ans
    let ans := fragStoreInit ans m.Arp arpKey
    let ans := fragStoreInit ans m.Subinterface l3subKey
    fragStoreInit ans m.Ipv6.Address ipv6Key
  | none =>
  match a.ModeL2 with
  | some m =>
    let ans :=
      { ans with
        Mode := "layer2",
        LldpEnabled := AsBool m.LldpEnabled,
        LldpProfile := m.LldpProfile,
        NetflowProfile := m.NetflowProfile }
    fragStoreInit ans m.Subinterface l2subKey
  | none =>
  match a.ModeVwire with
  | some m =>
    { ans with
        Mode := "virtual-wire",
        LldpEnabled := AsBool m.LldpEnabled,
        LldpProfile := m.LldpProfile,
        NetflowProfile := m.NetflowProfile }
  | none =>
  match a.TapMode with
  | some _ => { ans with Mode := "tap" }
  | none =>
  match a.HaMode with
  | some _ => { ans with Mode := "ha" }
  | none =>
  match a.DecryptMirrorMode with
  | some _ => { ans with Mode := "decrypt-mirror" }
  | none =>
  match a.AggregateGroupMode with
  | some _ => { ans with Mode := "aggregate-group" }
  | none => ans

/-- `specify_v1`: unified record to v1 wire entry, dispatched on `Mode`. -/
def specify_v1 (e : Entry) : entry_v1 :=
  let ans : entry_v1 :=
    { Name := e.Name, LinkSpeed := e.LinkSpeed,
      LinkDuplex := e.LinkDuplex, LinkState := e.LinkState, Comment := e.Comment }
  if e.Mode = "layer3" then
    let i : l3Mode_v1 :=
      { StaticIps := StrToEnt e.StaticIps,
        ManagementProfile := e.ManagementProfile,
        Mtu := e.Mtu,
        NetflowProfile := e.NetflowProfile,
        AdjustTcpMss := YesNo e.AdjustTcpMss,
        Ipv6 := { Enabled := YesNo e.Ipv6Enabled } }
    let i :=
      if e.EnableDhcp || e.CreateDhcpDefaultRoute || e.DhcpDefaultRouteMetric != 0 then
        let d : dhcpSettings :=
          { Enable := YesNo e.EnableDhcp,
            CreateDefaultRoute := YesNo e.CreateDhcpDefaultRoute,
            Metric := e.DhcpDefaultRouteMetric }
        { i with Dhcp := some d }
      else i
    let i :=
      match rawLookup e.raw arpKey with
      | some text => { i with Arp := some { Text := text } }
      | none => i
    let i :=
      match rawLookup e.raw l3subKey with
      | some text => { i with Subinterface := some { Text := text } }
      | none => i
    let i :=
      match rawLookup e.raw ipv6Key with
      | some text => { i with Ipv6 := { i.Ipv6 with Address := some { Text := text } } }
      | none => i
    { ans with ModeL3 := some i }
  else if e.Mode = "layer2" then
    let i : otherMode :=
      { LldpEnabled := YesNo e.LldpEnabled,
        LldpProfile := e.LldpProfile,
        NetflowProfile := e.NetflowProfile }
    let i :=
      match rawLookup e.raw l2subKey with
      | some text => { i with Subinterface := some { Text := text } }
      | none => i
    { ans with ModeL2 := some i }
  else if e.Mode = "virtual-wire" then
    let i : otherMode :=
      { LldpEnabled := YesNo e.LldpEnabled,
        LldpProfile := e.LldpProfile,
        NetflowProfile := e.NetflowProfile }
    { ans with ModeVwire := some i }
  else if e.Mode = "tap" then
    { ans with TapMode := some {} }
  else if e.Mode = "ha" then
    { ans with HaMode := some {} }
  else if e.Mode = "decrypt-mirror" then
    { ans with DecryptMirrorMode := some {} }
  else if e.Mode = "aggregate-group" then
    { ans with AggregateGroupMode := some {} }
  else
    ans

/-- `specify_v2`: unified record to v2 wire entry, dispatched on `Mode`;
additionally copies the two MSS adjustment integers in the layer3 case. -/
def specify_v2 (e : Entry) : entry_v2 :=
  let ans : entry_v2 :=
    { Name := e.Name, LinkSpeed := e.LinkSpeed,
      LinkDuplex := e.LinkDuplex, LinkState := e.LinkState, Comment := e.Comment }
  if e.Mode = "layer3" then
    let i : l3Mode_v2 :=
      { StaticIps := StrToEnt e.StaticIps,
        ManagementProfile := e.ManagementProfile,
        Mtu := e.Mtu,
        NetflowProfile := e.NetflowProfile,
        AdjustTcpMss := YesNo e.AdjustTcpMss,
        Ipv4MssAdjust := e.Ipv4MssAdjust,
        Ipv6MssAdjust := e.Ipv6MssAdjust,
        Ipv6 := { Enabled := YesNo e.Ipv6Enabled } }
    let i :=
      if e.EnableDhcp || e.CreateDhcpDefaultRoute || e.DhcpDefaultRouteMetric != 0 then
        let d : dhcpSettings :=
          { Enable := YesNo e.EnableDhcp,
            CreateDefaultRoute := YesNo e.CreateDhcpDefaultRoute,
            Metric := e.DhcpDefaultRouteMetric }
        { i with Dhcp := some d }
      else i
    let i :=
      match rawLookup e.raw arpKey with
      | some text => { i with Arp := some { Text := text } }
      | none => i
    let i :=
      match rawLookup e.raw l3subKey with
      | some text => { i with Subinterface := some { Text := text } }
      | none => i
    let i :=
      match rawLookup e.raw ipv6Key with
      | some text => { i with Ipv6 := { i.Ipv6 with Address := some { Text := text } } }
      | none => i
    { ans with ModeL3 := some i }
  else if e.Mode = "layer2" then
    let i : otherMode :=
      { LldpEnabled := YesNo e.LldpEnabled,
        LldpProfile := e.LldpProfile,
        NetflowProfile := e.NetflowProfile }
    let i :=
      match rawLookup e.raw l2subKey with
      | some text => { i with Subinterface := some { Text := text } }
      | none => i
    { ans with ModeL2 := some i }
  else if e.Mode = "virtual-wire" then
    let i : otherMode :=
      { LldpEnabled := YesNo e.LldpEnabled,
        LldpProfile := e.LldpProfile,
        NetflowProfile := e.NetflowProfile }
    { ans with ModeVwire := some i }
  else if e.Mode = "tap" then
    { ans with TapMode := some {} }
  else if e.Mode = "ha" then
    { ans with HaMode := some {} }
  else if e.Mode = "decrypt-mirror" then
    { ans with DecryptMirrorMode := some {} }
  else if e.Mode = "aggregate-group" then
    { ans with AggregateGroupMode := some {} }
  else
    ans

/-- The schema variant selected by the version dispatch. -/
inductive Variant
  | v1
  | v2
deriving Repr, DecidableEq

/-- `Eth.versioning`: selects the (normalizer, specifier) pair by comparing
the reported device version against 7.1.0. -/
def versioning (v : Number) : Variant :=
  if Number.Gte v { Major := 7, Minor := 1, Patch := 0, Suffix := "" } then Variant.v2
  else Variant.v1

/-- A wire entry of either schema variant, as produced by the selected
specifier. -/
inductive WireEntry
  | v1 (w : entry_v1)
  | v2 (w : entry_v2)
deriving Repr, DecidableEq

/-- The specifier bound to a variant by `versioning`. -/
def Variant.specify : Variant → Entry → WireEntry
  | Variant.v1 => fun e => WireEntry.v1 (specify_v1 e)
  | Variant.v2 => fun e => WireEntry.v2 (specify_v2 e)

/-- `Eth.xpath`: the collection request path, ending in the entry selector
built from the given names. -/
def xpath (vals : List String) : List String :=
  ["config",
   "devices",
   AsEntryXpath ["localhost.localdomain"],
   "network",
   "interface",
   "ethernet",
   AsEntryXpath vals]

/-- Observable outcome of one `Eth.Set` call: the transport write (path and
payload) if invoked, the vsys import call if invoked, and the returned
error (`none` is success). -/
structure SetTrace where
  setPath : Option (List String) := none
  setData : Option (List WireEntry) := none
  importCall : Option (String × List String) := none
  result : Option String := none
deriving Repr, DecidableEq

/-- `Eth.Set`: zero records short-circuits to success; otherwise every
record is specified with the version-selected specifier, the path is
truncated by one segment for a single record and by two for a batch, the
transport write is issued, and on its success the vsys import follows.
The transport and import collaborators are oracles giving each call's
error outcome. -/
def EthSet (v : Number) (vsys : String) (e : List Entry)
    (setErr importErr : Option String) : SetTrace :=
  if e.isEmpty then {}
  else
    let fn := (versioning v).specify
    let names := e.map Entry.Name
    let data := e.map fn
    let path := xpath names
    let path :=
      if e.length = 1 then path.take (path.length - 1)
      else path.take (path.length - 2)
    match setErr with
    | some err =>
      { setPath := some path, setData := some data, result := some err }
    | none =>
      { setPath := some path, setData := some data,
        importCall := some (vsys, names), result := importErr }

/-- An argument to `Eth.Delete`: a plain name, a full record, or a value of
any other dynamic type (carrying its formatted text). -/
inductive DelArg
  | str (s : String)
  | ent (e : Entry)
  | other (text : String)
deriving Repr, DecidableEq

/-- The name-extraction loop of `Eth.Delete`: the first argument that is
neither a string nor an `Entry` produces the local error naming it. -/
def extractNames : List DelArg → Except String (List String)
  | [] => Except.ok []
  | DelArg.str s :: t => (extractNames t).map (fun r => s :: r)
  | DelArg.ent en :: t => (extractNames t).map (fun r => en.Name :: r)
  | DelArg.other text :: _ =>
      Except.error (("Unknown type sent to delete: ") ++ text)

/-- Observable outcome of one `Eth.Delete` call: the vsys unimport call if
invoked, the transport delete call if invoked, and the returned error. -/
structure DeleteTrace where
  unimportCall : Option (String × List String) := none
  deleteCall : Option (List String) := none
  result : Option String := none
deriving Repr, DecidableEq

/-- `Eth.Delete`: zero identifiers short-circuits to success; a bad
identifier type short-circuits to a local error with no collaborator call;
otherwise unimport runs first and the transport delete is issued only on
its success.  The collaborators are oracles giving each call's error
outcome. -/
def EthDelete (vsys : String) (e : List DelArg)
    (unimportErr deleteErr : Option String) : DeleteTrace :=
  if e.isEmpty then {}
  else
    match extractNames e with
    | Except.error msg => { result := some msg }
    | Except.ok names =>
      match unimportErr with
      | some err =>
        { unimportCall := some (vsys, names), result := some err }
      | none =>
        { unimportCall := some (vsys, names),
          deleteCall := some (xpath names), result := deleteErr }

/-- `Eth.details` (the shared body of `Get` and `Show`): on a transport
read failure the zero-valued record and the transport error are returned
(and Normalize is never reached); on success the version-selected
normalizer runs on the decoded object.  `readErr` is the transport oracle;
`obj1` and `obj2` are the decoded wire objects the transport would fill
for the respective variant.  The outer `Option` is the v1 nil-map panic. -/
def details (v : Number) (readErr : Option String)
    (obj1 : container_v1) (obj2 : container_v2) : Option (Entry × Option String) :=
  match readErr with
  | some err => some ({}, some err)
  | none =>
    match versioning v with
    | Variant.v1 => (container_v1.Normalize obj1).map (fun a => (a, none))
    | Variant.v2 => some (container_v2.Normalize obj2, none)

/-- The layer2 / virtual-wire record fields, at their zero values. -/
def lldpFieldsZero (ans : Entry) : Prop :=
  ans.LldpEnabled = false ∧ ans.LldpProfile = ""

/-- The layer3 record fields, at their zero values.  `NetflowProfile` is
shared between the layer3, layer2 and virtual-wire modes and is therefore
not listed here. -/
def l3FieldsZero (ans : Entry) : Prop :=
  ans.StaticIps = [] ∧ ans.EnableDhcp = false ∧ ans.CreateDhcpDefaultRoute = false ∧
  ans.DhcpDefaultRouteMetric = 0 ∧ ans.Ipv6Enabled = false ∧
  ans.ManagementProfile = "" ∧ ans.Mtu = 0 ∧ ans.AdjustTcpMss = false ∧
  ans.Ipv4MssAdjust = 0 ∧ ans.Ipv6MssAdjust = 0

/-- Mode exclusivity of a normalized record: only the fields belonging to
the selected mode may be populated; every other mode's fields are at their
zero values.  The modes that carry no fields, and the empty mode, require
all mode-specific fields (including the shared `NetflowProfile`) zero. -/
def modeExclusive (ans : Entry) : Prop :=
  if ans.Mode = "layer3" then lldpFieldsZero ans
  else if ans.Mode = "layer2" ∨ ans.Mode = "virtual-wire" then l3FieldsZero ans
  else l3FieldsZero ans ∧ lldpFieldsZero ans ∧ ans.NetflowProfile = ""

/-- The name `Eth.Delete` extracts from a valid identifier argument. -/
def argName : DelArg → String
  | DelArg.str s => s
  | DelArg.ent en => en.Name
  | DelArg.other _ => ""

/-- Whether a `Delete` argument is of an unsupported dynamic type. -/
def isOther : DelArg → Bool
  | DelArg.other _ => true
  | _ => false

/-- Whether a specified v1 wire entry carries a dhcp-client sub-object. -/
def dhcpPresent_v1 (w : entry_v1) : Bool :=
  match w.ModeL3 with
  | some i => i.Dhcp.isSome
  | none => false

/-- Whether a specified v2 wire entry carries a dhcp-client sub-object. -/
def dhcpPresent_v2 (w : entry_v2) : Bool :=
  match w.ModeL3 with
  | some i => i.Dhcp.isSome
  | none => false

/-- A well-formed v1 wire object (layer3 is the only populated mode) whose
layer3 sub-tree carries an ARP fragment. -/
def arpWire_v1 : container_v1 :=
  { Answer :=
    { Name := "ethernet1/3",
      ModeL3 := some
        { Ipv6 := { Enabled := "no" },
          AdjustTcpMss := "no",
          Arp := some { Text := "<entry name=10.0.0.2/>" } } } }

/-- The same wire object in the v2 schema. -/
def arpWire_v2 : container_v2 :=
  { Answer :=
    { Name := "ethernet1/3",
      ModeL3 := some
        { Ipv6 := { Enabled := "no" },
          AdjustTcpMss := "no",
          Arp := some { Text := "<entry name=10.0.0.2/>" } } } }

/-- A well-formed v1 wire object (layer3 only) carrying a subinterface
(units) fragment. -/
def unitsWire_v1 : container_v1 :=
  { Answer :=
    { Name := "ethernet1/4",
      ModeL3 := some
        { Ipv6 := { Enabled := "yes" },
          AdjustTcpMss := "yes",
          Subinterface := some { Text := "<entry name=ethernet1/4.1/>" } } } }

/-- A well-formed v2 wire object with every layer3 feature exercised:
static address, DHCP block, and all three opaque fragments. -/
def roundtripWire_v2 : container_v2 :=
  { Answer :=
    { Name := "ethernet1/5",
      LinkSpeed := "auto", LinkDuplex := "auto", LinkState := "up",
      Comment := "uplink",
      ModeL3 := some
        { Ipv6 := { Enabled := "yes", Address := some { Text := "<entry name=fe80::1/>" } },
          ManagementProfile := "mp", Mtu := 1500, NetflowProfile := "nf",
          AdjustTcpMss := "yes", Ipv4MssAdjust := 40, Ipv6MssAdjust := 60,
          StaticIps := some ["10.0.0.1/24"],
          Dhcp := some { Enable := "yes", CreateDefaultRoute := "no", Metric := 10 },
          Arp := some { Text := "<entry name=10.0.0.2/>" },
          Subinterface := some { Text := "<entry name=ethernet1/5.1/>" } } } }

/-- C3 witness input: a layer3 record with non-zero MSS adjustments. -/
def mssEntry : Entry :=
  { Name := "ethernet1/6", Mode := "layer3", Ipv4MssAdjust := 42, Ipv6MssAdjust := 44 }

/-- C4 witness input: a layer3 record with DHCP entirely disabled. -/
def dhcpFreeEntry : Entry :=
  { Name := "ethernet1/7", Mode := "layer3", StaticIps := ["10.0.0.1/24"] }

/-- C9 witness input: a record with an unrecognized mode tag. -/
def unknownModeEntry : Entry :=
  { Name := "ethernet1/8", Mode := "sdwan", Comment := "odd" }

/-- C8 witness input: a v2 wire object in layer2 mode. -/
def l2Wire_v2 : container_v2 :=
  { Answer :=
    { Name := "ethernet1/9",
      ModeL2 := some
        { LldpEnabled := "yes", LldpProfile := "lp", NetflowProfile := "nf" } } }

/-- C8 witness input: a v1 wire object in tap mode. -/
def tapWire_v1 : container_v1 :=
  { Answer := { Name := "ethernet1/10", TapMode := some {} } }

/-- C1: the round-trip `specify(normalize(w))` cannot reproduce a
well-formed v1 wire object carrying an opaque fragment: v1's `Normalize`
writes the fragment into the never-initialized nil `raw` map and panics,
so no wire entry is produced at all.  In the v2 schema, whose `Normalize`
initializes the map, the round-trip reproduces the wire entry exactly,
opaque fragments byte-for-byte. -/
theorem roundtrip_v1_panics_v2_reproduces :
    (container_v1.Normalize unitsWire_v1).map specify_v1 = none ∧
    specify_v2 (container_v2.Normalize roundtripWire_v2) = roundtripWire_v2.Answer := by
  constructor
  · rfl
  · decide

/-- C2: `container_v1.Normalize` does not complete on a wire object whose
selected mode carries a fragment: the write into the never-initialized
`raw` map is Go's assignment-to-entry-in-nil-map panic.  The identical
wire object under v2, whose `Normalize` initializes the map, stores the
cleaned ARP text under the `arp` key as the claim describes. -/
theorem normalize_v1_nil_map_panics :
    container_v1.Normalize arpWire_v1 = none ∧
    rawLookup (container_v2.Normalize arpWire_v2).raw arpKey =
      some "<entry name=10.0.0.2/>" := by
  constructor
  · rfl
  · decide

/-- C10: when the transport read fails, `details` (the shared body of `Get`
and `Show`) returns the zero-valued `Entry` together with the transport
error, and the result is independent of the decoded wire objects —
`Normalize` is never applied. -/
theorem details_transport_error_zero_entry :
    ∀ (v : Number) (err : String) (obj1 obj1b : container_v1)
      (obj2 obj2b : container_v2),
      details v (some err) obj1 obj2 = some (({} : Entry), some err) ∧
      details v (some err) obj1 obj2 = details v (some err) obj1b obj2b :=
  fun _ _ _ _ _ _ => ⟨rfl, rfl⟩

/-- C3: `versioning` selects v2 exactly when the reported version is at
least 7.1.0 (lexicographically on major.minor.patch), and v1 otherwise; in
particular 7.0.9 selects v1 while 7.1.0 and 8.0.0 select v2.  The v2
specifier copies both MSS adjustment integers into the layer3 wire
sub-object (the v1 wire shape has no such fields). -/
theorem versioning_selects_v2_iff_gte_710 :
    (∀ v : Number, versioning v = Variant.v2 ↔
      (7 < v.Major ∨ (v.Major = 7 ∧ 1 ≤ v.Minor))) ∧
    versioning { Major := 7, Minor := 0, Patch := 9, Suffix := "" } = Variant.v1 ∧
    versioning { Major := 7, Minor := 1, Patch := 0, Suffix := "" } = Variant.v2 ∧
    versioning { Major := 8, Minor := 0, Patch := 0, Suffix := "" } = Variant.v2 ∧
    (∀ e : Entry, e.Mode = "layer3" →
      (specify_v2 e).ModeL3.map l3Mode_v2.Ipv4MssAdjust = some e.Ipv4MssAdjust ∧
      (specify_v2 e).ModeL3.map l3Mode_v2.Ipv6MssAdjust = some e.Ipv6MssAdjust) := by
  refine ⟨?_, by decide, by decide, by decide, ?_⟩
  · intro v
    rcases v with ⟨ma, mi, pa, su⟩
    simp only [versioning, Number.Gte]
    by_cases h1 : ma = 7 <;> by_cases h2 : mi = 1 <;>
      (simp [h1, h2]; try omega)
  · intro e h
    simp only [specify_v2, if_pos h]
    cases rawLookup e.raw arpKey <;> cases rawLookup e.raw l3subKey <;>
      cases rawLookup e.raw ipv6Key <;>
      by_cases hd : (e.EnableDhcp || e.CreateDhcpDefaultRoute ||
        e.DhcpDefaultRouteMetric != 0) = true <;>
      simp [hd]

/-- C3 witness: the dispatch applied at version 9.0.0 and the MSS copy
applied to a concrete layer3 record. -/
theorem versioning_selects_v2_iff_gte_710_witness :
    versioning { Major := 9, Minor := 0, Patch := 0, Suffix := "" } = Variant.v2 ∧
    (specify_v2 mssEntry).ModeL3.map l3Mode_v2.Ipv4MssAdjust = some 42 ∧
    (specify_v2 mssEntry).ModeL3.map l3Mode_v2.Ipv6MssAdjust = some 44 := by
  refine ⟨(versioning_selects_v2_iff_gte_710.1 _).mpr (by decide), ?_, ?_⟩
  · exact (versioning_selects_v2_iff_gte_710.2.2.2.2 mssEntry rfl).1
  · exact (versioning_selects_v2_iff_gte_710.2.2.2.2 mssEntry rfl).2

/-- C4: for a layer3 record, both specifiers emit a dhcp-client sub-object
exactly when EnableDhcp or CreateDhcpDefaultRoute is true or
DhcpDefaultRouteMetric is non-zero; with all three at zero the wire entry
carries no dhcp-client sub-object at all. -/
theorem specify_dhcp_present_iff (e : Entry) (h : e.Mode = "layer3") :
    dhcpPresent_v1 (specify_v1 e) =
      (e.EnableDhcp || e.CreateDhcpDefaultRoute || e.DhcpDefaultRouteMetric != 0) ∧
    dhcpPresent_v2 (specify_v2 e) =
      (e.EnableDhcp || e.CreateDhcpDefaultRoute || e.DhcpDefaultRouteMetric != 0) := by
  constructor
  · simp only [specify_v1, if_pos h, dhcpPresent_v1]
    cases rawLookup e.raw arpKey <;> cases rawLookup e.raw l3subKey <;>
      cases rawLookup e.raw ipv6Key <;>
      by_cases hd : (e.EnableDhcp || e.CreateDhcpDefaultRoute ||
        e.DhcpDefaultRouteMetric != 0) = true <;>
      simp [hd]
  · simp only [specify_v2, if_pos h, dhcpPresent_v2]
    cases rawLookup e.raw arpKey <;> cases rawLookup e.raw l3subKey <;>
      cases rawLookup e.raw ipv6Key <;>
      by_cases hd : (e.EnableDhcp || e.CreateDhcpDefaultRoute ||
        e.DhcpDefaultRouteMetric != 0) = true <;>
      simp [hd]

/-- C4 witness: a concrete layer3 record with DHCP fully disabled emits no
dhcp-client sub-object in either variant. -/
theorem specify_dhcp_present_iff_witness :
    dhcpPresent_v1 (specify_v1 dhcpFreeEntry) = false ∧
    dhcpPresent_v2 (specify_v2 dhcpFreeEntry) = false := by
  have h := specify_dhcp_present_iff dhcpFreeEntry rfl
  exact ⟨by rw [h.1]; decide, by rw [h.2]; decide⟩

/-- C5: `Set` with zero records succeeds with no transport call; with
exactly one record the write is issued at the single-entry path (the
collection path truncated by one segment, ending at the ethernet node,
the single entry being the payload); with two or more records it is
issued at the collection path (truncated by two segments, one bulk
request for the whole batch). -/
theorem set_batch_path_collapse :
    (∀ (v : Number) (vsys : String) (se ie : Option String),
      EthSet v vsys [] se ie = {}) ∧
    (∀ (v : Number) (vsys : String) (e : List Entry) (se ie : Option String),
      e.length = 1 →
      (EthSet v vsys e se ie).setPath =
        some ["config", "devices", AsEntryXpath ["localhost.localdomain"],
              "network", "interface", "ethernet"]) ∧
    (∀ (v : Number) (vsys : String) (e : List Entry) (se ie : Option String),
      2 ≤ e.length →
      (EthSet v vsys e se ie).setPath =
        some ["config", "devices", AsEntryXpath ["localhost.localdomain"],
              "network", "interface"]) := by
  refine ⟨fun v vsys se ie => by simp [EthSet], ?_, ?_⟩
  · intro v vsys e se ie h
    match e, h with
    | [a], _ =>
      cases se <;> simp [EthSet, xpath, List.take]
  · intro v vsys e se ie h
    match e, h with
    | a :: b :: t, _ =>
      have hlen : (a :: b :: t).length = 1 ↔ False := by simp
      cases se <;> simp [EthSet, xpath, List.take, hlen]

/-- C5 witness: the three cases applied at concrete batches. -/
theorem set_batch_path_collapse_witness :
    EthSet { Major := 8, Minor := 0, Patch := 0, Suffix := "" } "vsys1" [] none none = {} ∧
    (EthSet { Major := 8, Minor := 0, Patch := 0, Suffix := "" } "vsys1"
        [{ Name := "e1" }] none none).setPath =
      some ["config", "devices", AsEntryXpath ["localhost.localdomain"],
            "network", "interface", "ethernet"] ∧
    (EthSet { Major := 8, Minor := 0, Patch := 0, Suffix := "" } "vsys1"
        [{ Name := "e1" }, { Name := "e2" }] none none).setPath =
      some ["config", "devices", AsEntryXpath ["localhost.localdomain"],
            "network", "interface"] :=
  ⟨set_batch_path_collapse.1 _ _ _ _,
   set_batch_path_collapse.2.1 _ _ _ _ _ (by decide),
   set_batch_path_collapse.2.2 _ _ _ _ _ (by decide)⟩

/-- C6: in `Delete`, the vsys unimport runs before the transport delete:
when unimport fails, the unimport call is recorded, the delete transport
call is never issued, and the error returned to the caller is exactly the
unimport failure. -/
theorem delete_unimport_failure_blocks_delete (vsys : String) (e : List DelArg)
    (names : List String) (err : String) (de : Option String)
    (h1 : extractNames e = Except.ok names) (h2 : e ≠ []) :
    EthDelete vsys e (some err) de =
      { unimportCall := some (vsys, names), deleteCall := none,
        result := some err } := by
  have hne : e.isEmpty = false := by
    cases e
    · exact absurd rfl h2
    · rfl
  simp [EthDelete, hne, h1]

/-- C6 witness: a concrete two-name delete whose unimport fails. -/
theorem delete_unimport_failure_blocks_delete_witness :
    EthDelete "vsys1" [DelArg.str "e1", DelArg.str "e2"] (some "unimport failed") none =
      { unimportCall := some ("vsys1", ["e1", "e2"]), deleteCall := none,
        result := some "unimport failed" } :=
  delete_unimport_failure_blocks_delete "vsys1" _ _ _ _ rfl (by decide)

/-- Name extraction succeeds on any list free of invalid arguments. -/
theorem extractNames_ok (e : List DelArg) (h : ∀ a ∈ e, isOther a = false) :
    extractNames e = Except.ok (e.map argName) := by
  induction e with
  | nil => rfl
  | cons a t ih =>
    have ht : ∀ x ∈ t, isOther x = false := fun x hx => h x (List.mem_cons_of_mem _ hx)
    cases a with
    | str s => simp [extractNames, Except.map, ih ht, argName]
    | ent en => simp [extractNames, Except.map, ih ht, argName]
    | other text => exact absurd (h _ (List.mem_cons_self _ _)) (by simp [isOther])

/-- Name extraction stops at the first invalid argument with the local
error naming its formatted value. -/
theorem extractNames_first_invalid (pre : List DelArg) (text : String)
    (rest : List DelArg) (h : ∀ a ∈ pre, isOther a = false) :
    extractNames (pre ++ DelArg.other text :: rest) =
      Except.error (("Unknown type sent to delete: ") ++ text) := by
  induction pre with
  | nil => rfl
  | cons a t ih =>
    have ht : ∀ x ∈ t, isOther x = false := fun x hx => h x (List.mem_cons_of_mem _ hx)
    cases a with
    | str s => simp [extractNames, Except.map, ih ht]
    | ent en => simp [extractNames, Except.map, ih ht]
    | other tx => exact absurd (h _ (List.mem_cons_self _ _)) (by simp [isOther])

/-- C7: `Delete` extracts names from any mix of strings and records (the
string itself, or the record's `Name`); a list containing an argument of
any other type yields a local error naming that value with neither the
unimport nor the delete transport call issued; and zero identifiers
return success with no call at all. -/
theorem delete_arg_handling :
    (∀ (vsys : String) (ue de : Option String), EthDelete vsys [] ue de = {}) ∧
    (∀ e : List DelArg, (∀ a ∈ e, isOther a = false) →
      extractNames e = Except.ok (e.map argName)) ∧
    (∀ (vsys : String) (pre : List DelArg) (text : String) (rest : List DelArg)
        (ue de : Option String), (∀ a ∈ pre, isOther a = false) →
      EthDelete vsys (pre ++ DelArg.other text :: rest) ue de =
        { unimportCall := none, deleteCall := none,
          result := some (("Unknown type sent to delete: ") ++ text) }) := by
  refine ⟨fun vsys ue de => rfl, extractNames_ok, ?_⟩
  intro vsys pre text rest ue de h
  have hne : (pre ++ DelArg.other text :: rest).isEmpty = false := by
    cases pre <;> rfl
  simp [EthDelete, hne, extractNames_first_invalid pre text rest h]

/-- C7 witness: a mixed valid list extracts both names; a list with an
invalid argument errors locally naming it; the empty call is a no-op. -/
theorem delete_arg_handling_witness :
    EthDelete "vsys1" [] none none = {} ∧
    extractNames [DelArg.str "e1", DelArg.ent { Name := "e2" }] =
      Except.ok ["e1", "e2"] ∧
    EthDelete "vsys1" [DelArg.str "e1", DelArg.other "37"] none none =
      { unimportCall := none, deleteCall := none,
        result := some "Unknown type sent to delete: 37" } := by
  refine ⟨delete_arg_handling.1 "vsys1" none none, ?_, ?_⟩
  · exact delete_arg_handling.2.1 [DelArg.str "e1", DelArg.ent { Name := "e2" }]
      (by decide)
  · exact delete_arg_handling.2.2 "vsys1" [DelArg.str "e1"] "37" [] none none
      (by decide)

/-- C8: each normalizer populates only the fields of the single mode it
selects (first present in the priority order layer3, layer2, virtual-wire,
tap, ha, decrypt-mirror, aggregate-group); every other mode's fields stay
at their zero values in the returned record.  For v1 the statement is over
the records its `Normalize` actually returns (it panics when a fragment is
present). -/
theorem normalize_mode_exclusive :
    (∀ o : container_v2, modeExclusive (container_v2.Normalize o)) ∧
    (∀ (o : container_v1) (ans : Entry),
      container_v1.Normalize o = some ans → modeExclusive ans) := by
  constructor
  · intro o
    rcases o with ⟨⟨nm, l3, l2, vw, tp, ha, dm, ag, ls, ld, lst, cm⟩⟩
    cases l3 with
    | some m =>
      rcases m with ⟨⟨i6e, i6a⟩, mp, mtu, nf, mss, v4, v6, ips, dh, arp, sub⟩
      cases dh <;> cases arp <;> cases sub <;> cases i6a <;>
        simp [container_v2.Normalize, fragStoreInit, modeExclusive,
          lldpFieldsZero, l3FieldsZero]
    | none =>
    cases l2 with
    | some m =>
      rcases m with ⟨le, lp, nf, sub⟩
      cases sub <;>
        simp [container_v2.Normalize, fragStoreInit, modeExclusive,
          lldpFieldsZero, l3FieldsZero]
    | none =>
    cases vw with
    | some m =>
      simp [container_v2.Normalize, modeExclusive, lldpFieldsZero, l3FieldsZero]
    | none =>
      cases tp <;> cases ha <;> cases dm <;> cases ag <;>
        simp [container_v2.Normalize, modeExclusive, lldpFieldsZero, l3FieldsZero]
  · intro o ans h
    rcases o with ⟨⟨nm, l2, l3, vw, tp, ha, dm, ag, ls, ld, lst, cm⟩⟩
    cases l3 with
    | some m =>
      rcases m with ⟨⟨i6e, i6a⟩, mp, mtu, nf, mss, ips, dh, arp, sub⟩
      cases dh <;> cases arp <;> cases sub <;> cases i6a <;>
        simp [container_v1.Normalize, fragStore, rawStore] at h <;>
        (subst h; simp [modeExclusive, lldpFieldsZero, l3FieldsZero])
    | none =>
    cases l2 with
    | some m =>
      rcases m with ⟨le, lp, nf, sub⟩
      cases sub with
      | some x =>
        simp [container_v1.Normalize, fragStore, rawStore] at h
      | none =>
        simp [container_v1.Normalize, fragStore, rawStore] at h
        subst h
        simp [modeExclusive, lldpFieldsZero, l3FieldsZero]
    | none =>
    cases vw with
    | some m =>
      simp [container_v1.Normalize] at h
      subst h
      simp [modeExclusive, lldpFieldsZero, l3FieldsZero]
    | none =>
      cases tp <;> cases ha <;> cases dm <;> cases ag <;>
        (simp [container_v1.Normalize] at h;
         subst h;
         simp [modeExclusive, lldpFieldsZero, l3FieldsZero])

/-- C8 witness: exclusivity evaluated on a concrete v2 layer2 wire object
and on the record returned by v1 for a concrete tap wire object. -/
theorem normalize_mode_exclusive_witness :
    modeExclusive (container_v2.Normalize l2Wire_v2) ∧
    modeExclusive { Name := "ethernet1/10", Mode := "tap" } :=
  ⟨normalize_mode_exclusive.1 l2Wire_v2,
   normalize_mode_exclusive.2 tapWire_v1 { Name := "ethernet1/10", Mode := "tap" } rfl⟩

/-- C9: a wire object with no mode sub-object normalizes without error to a
record with empty `Mode` and only the identity/link fields copied; and a
record whose `Mode` is not one of the seven recognized tags specifies (in
both variants) to a wire entry carrying only the identity/link fields and
no mode sub-object. -/
theorem absent_and_unknown_modes_tolerated :
    (∀ o : container_v1,
      o.Answer.ModeL3 = none → o.Answer.ModeL2 = none → o.Answer.ModeVwire = none →
      o.Answer.TapMode = none → o.Answer.HaMode = none →
      o.Answer.DecryptMirrorMode = none → o.Answer.AggregateGroupMode = none →
      container_v1.Normalize o = some
        { Name := o.Answer.Name, LinkSpeed := o.Answer.LinkSpeed,
          LinkDuplex := o.Answer.LinkDuplex, LinkState := o.Answer.LinkState,
          Comment := o.Answer.Comment }) ∧
    (∀ o : container_v2,
      o.Answer.ModeL3 = none → o.Answer.ModeL2 = none → o.Answer.ModeVwire = none →
      o.Answer.TapMode = none → o.Answer.HaMode = none →
      o.Answer.DecryptMirrorMode = none → o.Answer.AggregateGroupMode = none →
      container_v2.Normalize o =
        { Name := o.Answer.Name, LinkSpeed := o.Answer.LinkSpeed,
          LinkDuplex := o.Answer.LinkDuplex, LinkState := o.Answer.LinkState,
          Comment := o.Answer.Comment, raw := some [] }) ∧
    (∀ e : Entry,
      e.Mode ≠ "layer3" → e.Mode ≠ "layer2" → e.Mode ≠ "virtual-wire" →
      e.Mode ≠ "tap" → e.Mode ≠ "ha" → e.Mode ≠ "decrypt-mirror" →
      e.Mode ≠ "aggregate-group" →
      specify_v1 e =
        { Name := e.Name, LinkSpeed := e.LinkSpeed, LinkDuplex := e.LinkDuplex,
          LinkState := e.LinkState, Comment := e.Comment } ∧
      specify_v2 e =
        { Name := e.Name, LinkSpeed := e.LinkSpeed, LinkDuplex := e.LinkDuplex,
          LinkState := e.LinkState, Comment := e.Comment }) := by
  refine ⟨?_, ?_, ?_⟩
  · intro o h1 h2 h3 h4 h5 h6 h7
    simp [container_v1.Normalize, h1, h2, h3, h4, h5, h6, h7]
  · intro o h1 h2 h3 h4 h5 h6 h7
    simp [container_v2.Normalize, h1, h2, h3, h4, h5, h6, h7]
  · intro e h1 h2 h3 h4 h5 h6 h7
    constructor
    · simp [specify_v1, h1, h2, h3, h4, h5, h6, h7]
    · simp [specify_v2, h1, h2, h3, h4, h5, h6, h7]

/-- C9 witness: a concrete empty wire object in each variant and a concrete
record with the unrecognized mode tag sdwan. -/
theorem absent_and_unknown_modes_tolerated_witness :
    container_v1.Normalize { Answer := { Name := "ethernet1/11" } } =
      some { Name := "ethernet1/11" } ∧
    container_v2.Normalize { Answer := { Name := "ethernet1/12" } } =
      { Name := "ethernet1/12", raw := some [] } ∧
    specify_v1 unknownModeEntry = { Name := "ethernet1/8", Comment := "odd" } ∧
    specify_v2 unknownModeEntry = { Name := "ethernet1/8", Comment := "odd" } :=
  ⟨absent_and_unknown_modes_tolerated.1 _ rfl rfl rfl rfl rfl rfl rfl,
   absent_and_unknown_modes_tolerated.2.1 _ rfl rfl rfl rfl rfl rfl rfl,
   (absent_and_unknown_modes_tolerated.2.2 unknownModeEntry (by decide) (by decide)
      (by decide) (by decide) (by decide) (by decide) (by decide)).1,
   (absent_and_unknown_modes_tolerated.2.2 unknownModeEntry (by decide) (by decide)
      (by decide) (by decide) (by decide) (by decide) (by decide)).2⟩

end Pango
